import Mathlib

/-!
Verification of the jira-dashboard-backend router
(`src/plugins/jira-dashboard-backend/src/service/router.ts`).

The router is sequential orchestration over external services.  We embed it
shallowly: every external call (catalog lookup, identity resolution, the
issue-tracker client, the filter helpers) is a field of an `Env` record of
pure functions, handlers are pure functions from a request to a response
record, and every outbound call to the issue tracker is logged in an explicit
`trace` so that claims about which upstream calls happen are statable.
Times are naturals (milliseconds); the cache is an explicit association list
threaded through the handlers.
-/

/-- A query predicate against the issue tracker: a (field, operator, value)
triple.  Modelled from the spec: the `JFilter` type lives in the common
package, which is not part of the analysed sources. -/
structure JFilter where
  field : String
  operator : String
  value : String
deriving DecidableEq

/-- An opaque issue record returned by the issue tracker; never inspected by
the router, only concatenated. -/
structure Issue where
  raw : String
deriving DecidableEq

/-- Issue-tracker project metadata.  `avatarUrls48` models the
`avatarUrls["48x48"]` field read by the avatar handler. -/
structure Project where
  key : String
  name : String
  avatarUrls48 : String
deriving DecidableEq

/-- A catalog entity as seen by the router: only `metadata.annotations` is
read.  The annotations object itself is optional in the source
(`entity.metadata.annotations?.[...]`), hence the `Option`. -/
structure Entity where
  annotations : Option (List (String × String))
deriving DecidableEq

/-- The caller identity returned by the identity service; the router only
reads `identity.userEntityRef`. -/
structure UserIdentity where
  userEntityRef : String
deriving DecidableEq

/-- The four configured annotation names returned by `getAnnotations(config)`.
The TS names end in `...Annotation`; they are shortened to `...Ann` here. -/
structure Config where
  projectKeyAnn : String
  componentsAnn : String
  componentRoadieAnn : String
  filtersAnn : String
deriving DecidableEq

/-- Response of the issue tracker's image endpoint, as consumed by the avatar
handler: a content-type header (possibly absent) and a byte stream. -/
structure AvatarImage where
  contentType : Option String
  bytes : List Nat
deriving DecidableEq

/-- One outbound call made on behalf of a request.  `projectLookup` is the
entry into the read-through project lookup (`getProjectResponse`);
`getProject` is the actual upstream "get project by key" call that the cache
may avoid; the two issue queries and the image fetch are the remaining
upstream calls.  Keys are `Option String` because the avatar handler can pass
an undefined key through. -/
inductive JiraCall where
  | projectLookup (key : Option String)
  | getProject (key : Option String)
  | issuesByFilters (key : String) (filters : List JFilter)
  | issuesByComponents (key : String) (components : List String)
  | fetchAvatar (url : String)
deriving DecidableEq

/-- The external collaborators consumed by the router, as pure functions.
`getProject` takes an `Option String` because the avatar handler performs no
presence check on the project-key annotation. -/
structure Env where
  getEntityByRef : String → Option Entity
  getProject : Option String → Option Project
  getIdentity : Option UserIdentity
  getDefaultFilters : Option String → List JFilter
  getFiltersFromAnnotations : List String → List JFilter
  getIssuesFromFilters : String → List JFilter → List Issue
  getIssuesFromComponents : String → List String → List Issue
  getProjectAvatar : String → AvatarImage

/-- `const DEFAULT_TTL = 1000 * 60` (milliseconds). -/
def DEFAULT_TTL : Nat := 1000 * 60

/-- The plugin cache: entries `(key, value, storedAt)`; an entry is visible
while `now < storedAt + DEFAULT_TTL`. -/
abbrev Cache := List (Option String × Project × Nat)

/-- Cache read: first entry for the key that is still within its TTL. -/
def cacheGet (c : Cache) (key : Option String) (now : Nat) : Option Project :=
  match c.find? (fun e => e.1 == key && decide (now < e.2.2 + DEFAULT_TTL)) with
  | some e => some e.2.1
  | none => none

/-- `kind:namespace/name`; models the external `stringifyEntityRef` as an
opaque encoding of the triple. -/
def stringifyEntityRef (kind ns name : String) : String :=
  kind ++ ":" ++ ns ++ "/" ++ name

/-- Annotation lookup, `entity.metadata.annotations?.[key]`. -/
def annGet (e : Entity) (key : String) : Option String :=
  match e.annotations with
  | none => none
  | some l => (l.find? (fun p => p.1 == key)).map Prod.snd

/-- JS falsiness of an optional string: `undefined` and `""` are falsy. -/
def strFalsy : Option String → Bool
  | none => true
  | some s => s.isEmpty

/-- `s.split(',')`. -/
def splitComma (s : String) : List String :=
  s.splitOn ","

/-- Modelled from the spec: `getProjectResponse` (in `service/service.ts`,
not among the analysed sources) is a read-through cache over the upstream
"get project by key" call — on hit it returns the cached value with no
upstream call; on miss it calls upstream, stores the result with the
60-second TTL and returns it; a failed upstream lookup raises an error (the
dashboard handler catches it) and caches nothing.  The third component is
the trace of calls performed. -/
def getProjectResponse (key : Option String) (env : Env) (c : Cache)
    (now : Nat) : Except Unit Project × Cache × List JiraCall :=
  match cacheGet c key now with
  | some p => (Except.ok p, c, [JiraCall.projectLookup key])
  | none =>
    match env.getProject key with
    | some p =>
        (Except.ok p, (key, p, now) :: c,
          [JiraCall.projectLookup key, JiraCall.getProject key])
    | none =>
        (Except.error (), c,
          [JiraCall.projectLookup key, JiraCall.getProject key])

/-- Number of upstream "get project" calls in a trace. -/
def countGetProject (tr : List JiraCall) : Nat :=
  (tr.filter fun e =>
    match e with
    | JiraCall.getProject _ => true
    | _ => false).length

/-- The filter list the dashboard handler sends to the filter-based issue
query: the default filters (built from config and the caller's
`userEntityRef`, if any), then — when the filters annotation is present —
the filters resolved from its comma-separated names, appended by
`filters.push(...)`. -/
def dashboardFilters (env : Env) (e : Entity) (filtersAnn : String) :
    List JFilter :=
  let base := env.getDefaultFilters
    (env.getIdentity.map (fun u => u.userEntityRef))
  match (annGet e filtersAnn).map splitComma with
  | some names => base ++ env.getFiltersFromAnnotations names
  | none => base

/-- The component list the dashboard handler sends to the component-based
issue query: comma-split primary components annotation (or `[]`), then the
comma-split Roadie components annotation (or `[]`), concatenated. -/
def dashboardComponents (e : Entity) (componentsAnn roadieAnn : String) :
    List String :=
  ((annGet e componentsAnn).map splitComma).getD [] ++
    ((annGet e roadieAnn).map splitComma).getD []

/-- Body of an HTTP response produced by a handler.  The 404 for a missing
project-key annotation serializes a bare string (`response.json(error)`),
hence the separate `errorStr` shape. -/
inductive RespBody where
  | empty
  | errorObj (msg : String)
  | errorStr (msg : String)
  | jira (project : Project) (data : List Issue)
deriving DecidableEq

/-- Outcome of the dashboard handler for one request: HTTP status, body,
cache after the request, trace of outbound calls, and logged messages. -/
structure DashboardOut where
  status : Nat
  body : RespBody
  cacheOut : Cache
  trace : List JiraCall
  logs : List String
deriving DecidableEq

/-- The `GET /dashboards/by-entity-ref/:kind/:namespace/:name` handler
(`router.ts` lines 87–178), step for step:
- no entity → `500` with a JSON error object (and an info log);
- falsy project-key annotation → `404` with a bare JSON string;
- `getProjectResponse` throws → `404` with a JSON error object;
- otherwise: warn when the identity is absent, build the filters
  (defaults first), run the filter query, build the component list and —
  because `if (components)` tests an array, which is always truthy —
  unconditionally run the component query, and answer `200` with the
  project and the concatenated issue lists. -/
def dashboardHandler (cfg : Config) (env : Env) (cache : Cache) (now : Nat)
    (kind ns name : String) : DashboardOut :=
  match env.getEntityByRef (stringifyEntityRef kind ns name) with
  | none =>
      { status := 500
        body := RespBody.errorObj
          ("No entity found for " ++ stringifyEntityRef kind ns name)
        cacheOut := cache
        trace := []
        logs := ["No entity found for " ++ stringifyEntityRef kind ns name] }
  | some entity =>
      if strFalsy (annGet entity cfg.projectKeyAnn) then
        { status := 404
          body := RespBody.errorStr
            ("No jira.com/project-key annotation found for " ++
              stringifyEntityRef kind ns name)
          cacheOut := cache
          trace := []
          logs := ["No jira.com/project-key annotation found for " ++
            stringifyEntityRef kind ns name] }
      else
        match getProjectResponse (annGet entity cfg.projectKeyAnn) env cache
            now with
        | (Except.error _, c1, tr) =>
            { status := 404
              body := RespBody.errorObj
                ("No Jira project found with key " ++
                  (annGet entity cfg.projectKeyAnn).getD "")
              cacheOut := c1
              trace := tr
              logs := ["Could not find Jira project " ++
                (annGet entity cfg.projectKeyAnn).getD ""] }
        | (Except.ok project, c1, tr) =>
            let projectKey := (annGet entity cfg.projectKeyAnn).getD ""
            let identityLogs : List String :=
              match env.getIdentity with
              | none => ["Could not find user identity"]
              | some _ => []
            let filters := dashboardFilters env entity cfg.filtersAnn
            let issues := env.getIssuesFromFilters projectKey filters
            let components :=
              dashboardComponents entity cfg.componentsAnn
                cfg.componentRoadieAnn
            let componentIssues :=
              env.getIssuesFromComponents projectKey components
            { status := 200
              body := RespBody.jira project (issues ++ componentIssues)
              cacheOut := c1
              trace := tr ++
                [JiraCall.issuesByFilters projectKey filters,
                 JiraCall.issuesByComponents projectKey components]
              logs := identityLogs }

/-- Outcome of the avatar handler: HTTP status, body, forwarded content-type
header, whether an image stream was opened, cache, trace and logs. -/
structure AvatarOut where
  status : Nat
  body : RespBody
  contentType : Option String
  streamOpened : Bool
  cacheOut : Cache
  trace : List JiraCall
  logs : List String
deriving DecidableEq

/-- The `GET /avatar/by-entity-ref/:kind/:namespace/:name` handler
(`router.ts` lines 180–230):
- no entity → `500` with a JSON error object;
- the project-key annotation is read with a non-null assertion and no
  presence check, and passed straight to `getProjectResponse`;
- the lookup is not wrapped in `try`/`catch`, so a failed lookup propagates
  to the router-wide `errorHandler`, which answers `500` (the in-handler
  `if (!projectResponse)` 400 branch is unreachable when the lookup raises
  on failure);
- on success, the 48×48 avatar URL is fetched and its content-type header
  (`?? ''`) and byte stream are forwarded. -/
def avatarHandler (cfg : Config) (env : Env) (cache : Cache) (now : Nat)
    (kind ns name : String) : AvatarOut :=
  match env.getEntityByRef (stringifyEntityRef kind ns name) with
  | none =>
      { status := 500
        body := RespBody.errorObj
          ("No entity found for " ++ stringifyEntityRef kind ns name)
        contentType := none
        streamOpened := false
        cacheOut := cache
        trace := []
        logs := ["No entity found for " ++ stringifyEntityRef kind ns name] }
  | some entity =>
      match getProjectResponse (annGet entity cfg.projectKeyAnn) env cache
          now with
      | (Except.error _, c1, tr) =>
          { status := 500
            body := RespBody.empty
            contentType := none
            streamOpened := false
            cacheOut := c1
            trace := tr
            logs := [] }
      | (Except.ok project, c1, tr) =>
          let image := env.getProjectAvatar project.avatarUrls48
          { status := 200
            body := RespBody.empty
            contentType := some (image.contentType.getD "")
            streamOpened := true
            cacheOut := c1
            trace := tr ++ [JiraCall.fetchAvatar project.avatarUrls48]
            logs := [] }

/-! ### Concrete instances used by witnesses and counterexamples -/

/-- A sample project. -/
def proj0 : Project :=
  { key := "PRJ", name := "Demo project", avatarUrls48 := "http://img/48" }

/-- Sample configuration with the conventional annotation names. -/
def cfg0 : Config :=
  { projectKeyAnn := "jira.com/project-key"
    componentsAnn := "jira.com/components"
    componentRoadieAnn := "roadie.backstage.io/jira/components"
    filtersAnn := "jira.com/filter-ids" }

/-- An entity carrying a project key, both component annotations and a
filters annotation. -/
def entityFull : Entity :=
  { annotations := some
      [("jira.com/project-key", "PRJ"),
       ("jira.com/components", "A"),
       ("roadie.backstage.io/jira/components", "B"),
       ("jira.com/filter-ids", "open")] }

/-- An entity carrying only the project key. -/
def entityKeyOnly : Entity :=
  { annotations := some [("jira.com/project-key", "PRJ")] }

/-- An entity with annotations but no project key. -/
def entityNoKey : Entity :=
  { annotations := some [("other", "x")] }

/-- A sample environment: the catalog knows three refs, the issue tracker
knows project `PRJ`, and the queries return distinguishable lists. -/
def env0 : Env :=
  { getEntityByRef := fun r =>
      if r == "component:default/svc" then some entityFull
      else if r == "component:default/bare" then some entityKeyOnly
      else if r == "component:default/nokey" then some entityNoKey
      else none
    getProject := fun k => if k == some "PRJ" then some proj0 else none
    getIdentity := some { userEntityRef := "user:default/me" }
    getDefaultFilters := fun u =>
      [{ field := "assignee", operator := "=", value := u.getD "-" }]
    getFiltersFromAnnotations := fun names =>
      names.map fun n => { field := "filter", operator := "=", value := n }
    getIssuesFromFilters := fun _ _ => [⟨"F1"⟩, ⟨"F2"⟩]
    getIssuesFromComponents := fun _ cs => cs.map Issue.mk
    getProjectAvatar := fun _ =>
      { contentType := some "image/png", bytes := [137, 80, 78, 71] } }

/-- `env0` with an identity service that finds no caller. -/
def envNoIdentity : Env :=
  { env0 with getIdentity := none }

/-- `env0` with an issue tracker that knows no project. -/
def envNoProject : Env :=
  { env0 with getProject := fun _ => none }

deriving instance DecidableEq for Except

/-! ### Helper lemmas about the read-through project lookup -/

/-- Every run of the read-through lookup records its cache-layer entry. -/
theorem projectLookup_mem_lookup_trace (k : Option String) (env : Env)
    (c : Cache) (t : Nat) :
    JiraCall.projectLookup k ∈ (getProjectResponse k env c t).2.2 := by
  unfold getProjectResponse
  cases cacheGet c k t with
  | some p => simp
  | none => cases env.getProject k <;> simp

/-- A single run of the read-through lookup calls upstream at most once. -/
theorem countGetProject_lookup_le_one (k : Option String) (env : Env)
    (c : Cache) (t : Nat) :
    countGetProject (getProjectResponse k env c t).2.2 ≤ 1 := by
  unfold getProjectResponse
  cases cacheGet c k t with
  | some p => simp [countGetProject]
  | none => cases env.getProject k <;> simp [countGetProject]

/-- The read-through lookup never touches the image endpoint. -/
theorem fetchAvatar_not_in_lookup_trace (k : Option String) (env : Env)
    (c : Cache) (t : Nat) (u : String) :
    JiraCall.fetchAvatar u ∉ (getProjectResponse k env c t).2.2 := by
  unfold getProjectResponse
  cases cacheGet c k t with
  | some p => simp
  | none => cases env.getProject k <;> simp

/-! ### Claim theorems -/

/-- C2: for every entity whose annotation set lacks the project-key
annotation, the dashboard endpoint returns status 404 and performs no call
to the issue tracker — no project lookup and no issue query (the trace of
outbound calls is empty). -/
theorem missing_project_key_404_no_calls
    (cfg : Config) (env : Env) (cache : Cache) (now : Nat)
    (kind ns name : String) (e : Entity)
    (hEnt : env.getEntityByRef (stringifyEntityRef kind ns name) = some e)
    (hAnn : annGet e cfg.projectKeyAnn = none) :
    (dashboardHandler cfg env cache now kind ns name).status = 404 ∧
    (dashboardHandler cfg env cache now kind ns name).trace = [] := by
  unfold dashboardHandler
  rw [hEnt]
  simp [hAnn, strFalsy]

/-- Witness for `missing_project_key_404_no_calls` at a concrete entity
without the project-key annotation. -/
theorem missing_project_key_404_no_calls_witness :
    (dashboardHandler cfg0 env0 [] 0 "component" "default" "nokey").status
        = 404 ∧
    (dashboardHandler cfg0 env0 [] 0 "component" "default" "nokey").trace
        = [] :=
  missing_project_key_404_no_calls cfg0 env0 [] 0 "component" "default"
    "nokey" entityNoKey (by decide) (by decide)

/-- C1 counterexample: at a request whose entity the catalog does not know,
the dashboard handler answers 500, not the 404 the claim states for the
entity-not-found case. -/
theorem dashboard_entity_missing_500_cex :
    env0.getEntityByRef (stringifyEntityRef "component" "default" "ghost")
        = none ∧
    (dashboardHandler cfg0 env0 [] 0 "component" "default" "ghost").status
        = 500 ∧
    ¬ (dashboardHandler cfg0 env0 [] 0 "component" "default" "ghost").status
        = 404 := by
  decide

/-- C1 (amended): for every dashboard request, a missing entity yields
status 500 with a JSON error body; a missing (or empty) project-key
annotation yields 404 with a JSON error body; a failed project lookup
yields 404 with a JSON error body. -/
theorem dashboard_error_statuses
    (cfg : Config) (env : Env) (cache : Cache) (now : Nat)
    (kind ns name : String) :
    (env.getEntityByRef (stringifyEntityRef kind ns name) = none →
      (dashboardHandler cfg env cache now kind ns name).status = 500 ∧
      ∃ msg, (dashboardHandler cfg env cache now kind ns name).body
          = RespBody.errorObj msg) ∧
    (∀ e, env.getEntityByRef (stringifyEntityRef kind ns name) = some e →
      strFalsy (annGet e cfg.projectKeyAnn) = true →
      (dashboardHandler cfg env cache now kind ns name).status = 404 ∧
      ∃ msg, (dashboardHandler cfg env cache now kind ns name).body
          = RespBody.errorStr msg) ∧
    (∀ e c1 tr,
      env.getEntityByRef (stringifyEntityRef kind ns name) = some e →
      strFalsy (annGet e cfg.projectKeyAnn) = false →
      getProjectResponse (annGet e cfg.projectKeyAnn) env cache now
          = (Except.error (), c1, tr) →
      (dashboardHandler cfg env cache now kind ns name).status = 404 ∧
      ∃ msg, (dashboardHandler cfg env cache now kind ns name).body
          = RespBody.errorObj msg) := by
  refine ⟨?_, ?_, ?_⟩
  · intro hEnt
    unfold dashboardHandler
    rw [hEnt]
    simp
  · intro e hEnt hFalsy
    unfold dashboardHandler
    rw [hEnt]
    simp [hFalsy]
  · intro e c1 tr hEnt hFalsy hLook
    unfold dashboardHandler
    rw [hEnt]
    simp [hFalsy, hLook]

/-- Witness for `dashboard_error_statuses`: each branch applied at a
concrete request (missing entity; entity without the annotation; entity
whose project the issue tracker does not know). -/
theorem dashboard_error_statuses_witness :
    ((dashboardHandler cfg0 env0 [] 0 "component" "default" "ghost").status
        = 500 ∧
      ∃ msg, (dashboardHandler cfg0 env0 [] 0 "component" "default"
          "ghost").body = RespBody.errorObj msg) ∧
    ((dashboardHandler cfg0 env0 [] 0 "component" "default" "nokey").status
        = 404 ∧
      ∃ msg, (dashboardHandler cfg0 env0 [] 0 "component" "default"
          "nokey").body = RespBody.errorStr msg) ∧
    ((dashboardHandler cfg0 envNoProject [] 0 "component" "default"
        "svc").status = 404 ∧
      ∃ msg, (dashboardHandler cfg0 envNoProject [] 0 "component" "default"
          "svc").body = RespBody.errorObj msg) :=
  ⟨(dashboard_error_statuses cfg0 env0 [] 0 "component" "default" "ghost").1
      (by decide),
   (dashboard_error_statuses cfg0 env0 [] 0 "component" "default"
      "nokey").2.1 entityNoKey (by decide) (by decide),
   (dashboard_error_statuses cfg0 envNoProject [] 0 "component" "default"
      "svc").2.2 entityFull []
      [JiraCall.projectLookup (some "PRJ"), JiraCall.getProject (some "PRJ")]
      (by decide) (by decide) (by decide)⟩

/-- C3: for two lookups of the same project key through the read-through
cache, if the first succeeds at `t1` and the second runs at `t2` within the
60-second TTL window, the upstream "get project" call happens at most once
over both lookups; and after the TTL has elapsed (starting from an empty
cache, so the entry stored by the first lookup is the only candidate), the
later lookup calls upstream again. -/
theorem project_cache_ttl (env : Env) (k : Option String) (p : Project)
    (t1 : Nat) :
    (∀ t2 c c1 tr1, t1 ≤ t2 → t2 < t1 + DEFAULT_TTL →
      getProjectResponse k env c t1 = (Except.ok p, c1, tr1) →
      countGetProject tr1 +
        countGetProject (getProjectResponse k env c1 t2).2.2 ≤ 1) ∧
    (∀ t2 c1 tr1, t1 + DEFAULT_TTL ≤ t2 →
      getProjectResponse k env [] t1 = (Except.ok p, c1, tr1) →
      JiraCall.getProject k ∈ (getProjectResponse k env c1 t2).2.2) := by
  constructor
  · intro t2 c c1 tr1 hle hlt h1
    unfold getProjectResponse at h1
    cases hg : cacheGet c k t1 with
    | some q =>
      rw [hg] at h1
      simp only [Prod.mk.injEq] at h1
      obtain ⟨-, hc, htr⟩ := h1
      subst hc
      subst htr
      have h2 := countGetProject_lookup_le_one k env c t2
      have h3 : countGetProject [JiraCall.projectLookup k] = 0 := rfl
      omega
    | none =>
      rw [hg] at h1
      cases hp : env.getProject k with
      | none =>
        rw [hp] at h1
        simp at h1
      | some q =>
        rw [hp] at h1
        simp only [Prod.mk.injEq] at h1
        obtain ⟨hq, hc, htr⟩ := h1
        subst hc
        subst htr
        have hhit : cacheGet ((k, q, t1) :: c) k t2 = some q := by
          unfold cacheGet
          rw [List.find?_cons_of_pos]
          simp [hlt]
        unfold getProjectResponse
        rw [hhit]
        simp [countGetProject]
  · intro t2 c1 tr1 hge h1
    unfold getProjectResponse at h1
    have hmiss0 : cacheGet [] k t1 = none := rfl
    rw [hmiss0] at h1
    cases hp : env.getProject k with
    | none =>
      rw [hp] at h1
      simp at h1
    | some q =>
      rw [hp] at h1
      simp only [Prod.mk.injEq] at h1
      obtain ⟨hq, hc, htr⟩ := h1
      subst hc
      have hmiss : cacheGet [(k, q, t1)] k t2 = none := by
        unfold cacheGet
        rw [List.find?_cons_of_neg]
        · rfl
        · simp
          omega
      unfold getProjectResponse
      rw [hmiss]
      cases env.getProject k <;> simp

/-- Witness for `project_cache_ttl`: with the sample environment and project
key, a miss at time 0 followed by a lookup at time 1 makes one upstream
call in total, and a lookup at time 60000 calls upstream again. -/
theorem project_cache_ttl_witness :
    (countGetProject
        [JiraCall.projectLookup (some "PRJ"),
         JiraCall.getProject (some "PRJ")] +
      countGetProject
        (getProjectResponse (some "PRJ") env0
          [(some "PRJ", proj0, 0)] 1).2.2 ≤ 1) ∧
    JiraCall.getProject (some "PRJ") ∈
      (getProjectResponse (some "PRJ") env0
        [(some "PRJ", proj0, 0)] 60000).2.2 :=
  ⟨(project_cache_ttl env0 (some "PRJ") proj0 0).1 1 []
      [(some "PRJ", proj0, 0)]
      [JiraCall.projectLookup (some "PRJ"),
       JiraCall.getProject (some "PRJ")]
      (by decide) (by decide) (by decide),
   (project_cache_ttl env0 (some "PRJ") proj0 0).2 60000
      [(some "PRJ", proj0, 0)]
      [JiraCall.projectLookup (some "PRJ"),
       JiraCall.getProject (some "PRJ")]
      (by decide) (by decide)⟩

/-- C4: on a successful dashboard request for an entity with a non-empty
components annotation, the returned data is exactly the filter-query result
concatenated with the component-query result, so its length is the sum of
the two result counts, with no deduplication. -/
theorem dashboard_data_length_sum
    (cfg : Config) (env : Env) (cache : Cache) (now : Nat)
    (kind ns name : String) (e : Entity) (k : String) (p : Project)
    (c1 : Cache) (tr : List JiraCall) (comps : String)
    (hEnt : env.getEntityByRef (stringifyEntityRef kind ns name) = some e)
    (hKey : annGet e cfg.projectKeyAnn = some k)
    (hK : k.isEmpty = false)
    (hLook : getProjectResponse (some k) env cache now
        = (Except.ok p, c1, tr))
    (hComp : annGet e cfg.componentsAnn = some comps)
    (hCompNE : comps ≠ "") :
    (dashboardHandler cfg env cache now kind ns name).status = 200 ∧
    (dashboardHandler cfg env cache now kind ns name).body
      = RespBody.jira p
          (env.getIssuesFromFilters k (dashboardFilters env e cfg.filtersAnn)
            ++ env.getIssuesFromComponents k
              (dashboardComponents e cfg.componentsAnn
                cfg.componentRoadieAnn)) ∧
    (env.getIssuesFromFilters k (dashboardFilters env e cfg.filtersAnn)
        ++ env.getIssuesFromComponents k
          (dashboardComponents e cfg.componentsAnn
            cfg.componentRoadieAnn)).length
      = (env.getIssuesFromFilters k
          (dashboardFilters env e cfg.filtersAnn)).length
        + (env.getIssuesFromComponents k
            (dashboardComponents e cfg.componentsAnn
              cfg.componentRoadieAnn)).length := by
  unfold dashboardHandler
  rw [hEnt]
  simp [hKey, strFalsy, hK, hLook, List.length_append]

/-- Witness for `dashboard_data_length_sum` at the sample entity whose
components annotation is `"A"`. -/
theorem dashboard_data_length_sum_witness :
    (dashboardHandler cfg0 env0 [] 0 "component" "default" "svc").status
        = 200 ∧
    (dashboardHandler cfg0 env0 [] 0 "component" "default" "svc").body
      = RespBody.jira proj0
          (env0.getIssuesFromFilters "PRJ"
              (dashboardFilters env0 entityFull cfg0.filtersAnn)
            ++ env0.getIssuesFromComponents "PRJ"
              (dashboardComponents entityFull cfg0.componentsAnn
                cfg0.componentRoadieAnn)) ∧
    (env0.getIssuesFromFilters "PRJ"
        (dashboardFilters env0 entityFull cfg0.filtersAnn)
      ++ env0.getIssuesFromComponents "PRJ"
        (dashboardComponents entityFull cfg0.componentsAnn
          cfg0.componentRoadieAnn)).length
      = (env0.getIssuesFromFilters "PRJ"
          (dashboardFilters env0 entityFull cfg0.filtersAnn)).length
        + (env0.getIssuesFromComponents "PRJ"
            (dashboardComponents entityFull cfg0.componentsAnn
              cfg0.componentRoadieAnn)).length :=
  dashboard_data_length_sum cfg0 env0 [] 0 "component" "default" "svc"
    entityFull "PRJ" proj0 [(some "PRJ", proj0, 0)]
    [JiraCall.projectLookup (some "PRJ"), JiraCall.getProject (some "PRJ")]
    "A" (by decide) (by decide) (by decide) (by decide) (by decide)
    (by decide)

/-- C5: when both the primary and the Roadie components annotations are
present, the component list passed to the component-based issue query is
the concatenation of the comma-split values of both annotations — neither
overrides the other. -/
theorem components_concat_both_variants
    (cfg : Config) (env : Env) (cache : Cache) (now : Nat)
    (kind ns name : String) (e : Entity) (k : String) (p : Project)
    (c1 : Cache) (tr : List JiraCall) (a b : String)
    (hEnt : env.getEntityByRef (stringifyEntityRef kind ns name) = some e)
    (hKey : annGet e cfg.projectKeyAnn = some k)
    (hK : k.isEmpty = false)
    (hLook : getProjectResponse (some k) env cache now
        = (Except.ok p, c1, tr))
    (hA : annGet e cfg.componentsAnn = some a)
    (hB : annGet e cfg.componentRoadieAnn = some b) :
    dashboardComponents e cfg.componentsAnn cfg.componentRoadieAnn
      = splitComma a ++ splitComma b ∧
    JiraCall.issuesByComponents k (splitComma a ++ splitComma b) ∈
      (dashboardHandler cfg env cache now kind ns name).trace := by
  have hcomps : dashboardComponents e cfg.componentsAnn cfg.componentRoadieAnn
      = splitComma a ++ splitComma b := by
    simp [dashboardComponents, hA, hB]
  refine ⟨hcomps, ?_⟩
  unfold dashboardHandler
  rw [hEnt]
  simp [hKey, strFalsy, hK, hLook, hcomps]

/-- Witness for `components_concat_both_variants` at the sample entity with
primary components `"A"` and Roadie components `"B"`. -/
theorem components_concat_both_variants_witness :
    dashboardComponents entityFull cfg0.componentsAnn cfg0.componentRoadieAnn
      = splitComma "A" ++ splitComma "B" ∧
    JiraCall.issuesByComponents "PRJ" (splitComma "A" ++ splitComma "B") ∈
      (dashboardHandler cfg0 env0 [] 0 "component" "default" "svc").trace :=
  components_concat_both_variants cfg0 env0 [] 0 "component" "default" "svc"
    entityFull "PRJ" proj0 [(some "PRJ", proj0, 0)]
    [JiraCall.projectLookup (some "PRJ"), JiraCall.getProject (some "PRJ")]
    "A" "B" (by decide) (by decide) (by decide) (by decide) (by decide)
    (by decide)

/-- C6 evidence: for an entity with neither components annotation, the
dashboard handler still issues the component-based query, with an empty
component list — the `if (components)` guard tests an array and an array is
always truthy, so the query is not skipped as the claim states. -/
theorem component_query_issued_when_empty :
    annGet entityKeyOnly cfg0.componentsAnn = none ∧
    annGet entityKeyOnly cfg0.componentRoadieAnn = none ∧
    dashboardComponents entityKeyOnly cfg0.componentsAnn
        cfg0.componentRoadieAnn = [] ∧
    JiraCall.issuesByComponents "PRJ" [] ∈
      (dashboardHandler cfg0 env0 [] 0 "component" "default" "bare").trace := by
  decide

/-- C7: the filter list passed to the filter-based issue query is the
default filters followed by the filters resolved from the entity's filters
annotation — as a list append, so every default filter precedes every
annotation-derived filter. -/
theorem filters_defaults_first
    (cfg : Config) (env : Env) (cache : Cache) (now : Nat)
    (kind ns name : String) (e : Entity) (k : String) (p : Project)
    (c1 : Cache) (tr : List JiraCall)
    (hEnt : env.getEntityByRef (stringifyEntityRef kind ns name) = some e)
    (hKey : annGet e cfg.projectKeyAnn = some k)
    (hK : k.isEmpty = false)
    (hLook : getProjectResponse (some k) env cache now
        = (Except.ok p, c1, tr)) :
    dashboardFilters env e cfg.filtersAnn
      = env.getDefaultFilters (env.getIdentity.map fun u => u.userEntityRef)
        ++ (match annGet e cfg.filtersAnn with
            | some s => env.getFiltersFromAnnotations (splitComma s)
            | none => []) ∧
    JiraCall.issuesByFilters k (dashboardFilters env e cfg.filtersAnn) ∈
      (dashboardHandler cfg env cache now kind ns name).trace := by
  constructor
  · unfold dashboardFilters
    cases annGet e cfg.filtersAnn <;> simp
  · unfold dashboardHandler
    rw [hEnt]
    simp [hKey, strFalsy, hK, hLook]

/-- Witness for `filters_defaults_first` at the sample entity whose filters
annotation resolves the single name `"open"`. -/
theorem filters_defaults_first_witness :
    dashboardFilters env0 entityFull cfg0.filtersAnn
      = env0.getDefaultFilters (env0.getIdentity.map fun u => u.userEntityRef)
        ++ (match annGet entityFull cfg0.filtersAnn with
            | some s => env0.getFiltersFromAnnotations (splitComma s)
            | none => []) ∧
    JiraCall.issuesByFilters "PRJ"
        (dashboardFilters env0 entityFull cfg0.filtersAnn) ∈
      (dashboardHandler cfg0 env0 [] 0 "component" "default" "svc").trace :=
  filters_defaults_first cfg0 env0 [] 0 "component" "default" "svc"
    entityFull "PRJ" proj0 [(some "PRJ", proj0, 0)]
    [JiraCall.projectLookup (some "PRJ"), JiraCall.getProject (some "PRJ")]
    (by decide) (by decide) (by decide) (by decide)

/-- C9: when identity resolution returns no caller identity, the dashboard
request still completes with status 200, the absence is logged, and the
default filters are built without a user entity reference. -/
theorem missing_identity_still_200
    (cfg : Config) (env : Env) (cache : Cache) (now : Nat)
    (kind ns name : String) (e : Entity) (k : String) (p : Project)
    (c1 : Cache) (tr : List JiraCall)
    (hEnt : env.getEntityByRef (stringifyEntityRef kind ns name) = some e)
    (hKey : annGet e cfg.projectKeyAnn = some k)
    (hK : k.isEmpty = false)
    (hLook : getProjectResponse (some k) env cache now
        = (Except.ok p, c1, tr))
    (hId : env.getIdentity = none) :
    (dashboardHandler cfg env cache now kind ns name).status = 200 ∧
    "Could not find user identity" ∈
      (dashboardHandler cfg env cache now kind ns name).logs ∧
    dashboardFilters env e cfg.filtersAnn
      = env.getDefaultFilters none
        ++ (match annGet e cfg.filtersAnn with
            | some s => env.getFiltersFromAnnotations (splitComma s)
            | none => []) ∧
    JiraCall.issuesByFilters k (dashboardFilters env e cfg.filtersAnn) ∈
      (dashboardHandler cfg env cache now kind ns name).trace := by
  refine ⟨?_, ?_, ?_, ?_⟩
  · unfold dashboardHandler
    rw [hEnt]
    simp [hKey, strFalsy, hK, hLook]
  · unfold dashboardHandler
    rw [hEnt]
    simp [hKey, strFalsy, hK, hLook, hId]
  · unfold dashboardFilters
    rw [hId]
    cases annGet e cfg.filtersAnn <;> simp
  · unfold dashboardHandler
    rw [hEnt]
    simp [hKey, strFalsy, hK, hLook]

/-- Witness for `missing_identity_still_200` with an identity service that
finds no caller. -/
theorem missing_identity_still_200_witness :
    (dashboardHandler cfg0 envNoIdentity [] 0 "component" "default"
        "svc").status = 200 ∧
    "Could not find user identity" ∈
      (dashboardHandler cfg0 envNoIdentity [] 0 "component" "default"
        "svc").logs ∧
    dashboardFilters envNoIdentity entityFull cfg0.filtersAnn
      = envNoIdentity.getDefaultFilters none
        ++ (match annGet entityFull cfg0.filtersAnn with
            | some s => envNoIdentity.getFiltersFromAnnotations (splitComma s)
            | none => []) ∧
    JiraCall.issuesByFilters "PRJ"
        (dashboardFilters envNoIdentity entityFull cfg0.filtersAnn) ∈
      (dashboardHandler cfg0 envNoIdentity [] 0 "component" "default"
        "svc").trace :=
  missing_identity_still_200 cfg0 envNoIdentity [] 0 "component" "default"
    "svc" entityFull "PRJ" proj0 [(some "PRJ", proj0, 0)]
    [JiraCall.projectLookup (some "PRJ"), JiraCall.getProject (some "PRJ")]
    (by decide) (by decide) (by decide) (by decide) (by decide)

/-- C8 counterexample: at a request whose project lookup fails, the avatar
handler answers 500 — the failure propagates to the router-wide error
boundary because the lookup is not wrapped in `try`/`catch` — not the 400
the claim states (no stream is opened, as the claim also states). -/
theorem avatar_lookup_failure_500_cex :
    envNoProject.getProject (some "PRJ") = none ∧
    (avatarHandler cfg0 envNoProject [] 0 "component" "default"
        "svc").status = 500 ∧
    ¬ (avatarHandler cfg0 envNoProject [] 0 "component" "default"
        "svc").status = 400 ∧
    (avatarHandler cfg0 envNoProject [] 0 "component" "default"
        "svc").streamOpened = false := by
  decide

/-- C8 (amended): for every avatar request whose project lookup fails, no
stream to the image endpoint is opened and the response status is 500 (the
error reaches the generic boundary; the handler's own 400 branch for a
missing project is unreachable because the lookup raises on failure). -/
theorem avatar_lookup_failure_no_stream
    (cfg : Config) (env : Env) (cache : Cache) (now : Nat)
    (kind ns name : String) (e : Entity) (c1 : Cache) (tr : List JiraCall)
    (hEnt : env.getEntityByRef (stringifyEntityRef kind ns name) = some e)
    (hLook : getProjectResponse (annGet e cfg.projectKeyAnn) env cache now
        = (Except.error (), c1, tr)) :
    (avatarHandler cfg env cache now kind ns name).status = 500 ∧
    (avatarHandler cfg env cache now kind ns name).streamOpened = false ∧
    ∀ u, JiraCall.fetchAvatar u ∉
      (avatarHandler cfg env cache now kind ns name).trace := by
  have htr : tr = (getProjectResponse (annGet e cfg.projectKeyAnn) env cache
      now).2.2 := by
    rw [hLook]
  refine ⟨?_, ?_, ?_⟩
  · unfold avatarHandler
    rw [hEnt]
    simp [hLook]
  · unfold avatarHandler
    rw [hEnt]
    simp [hLook]
  · intro u
    unfold avatarHandler
    rw [hEnt]
    simp only [hLook]
    rw [htr]
    exact fetchAvatar_not_in_lookup_trace (annGet e cfg.projectKeyAnn) env
      cache now u

/-- Witness for `avatar_lookup_failure_no_stream` with an issue tracker
that knows no project. -/
theorem avatar_lookup_failure_no_stream_witness :
    (avatarHandler cfg0 envNoProject [] 0 "component" "default"
        "bare").status = 500 ∧
    (avatarHandler cfg0 envNoProject [] 0 "component" "default"
        "bare").streamOpened = false ∧
    ∀ u, JiraCall.fetchAvatar u ∉
      (avatarHandler cfg0 envNoProject [] 0 "component" "default"
        "bare").trace :=
  avatar_lookup_failure_no_stream cfg0 envNoProject [] 0 "component"
    "default" "bare" entityKeyOnly []
    [JiraCall.projectLookup (some "PRJ"), JiraCall.getProject (some "PRJ")]
    (by decide) (by decide)

/-- C10: the avatar handler never checks the project-key annotation — for
every entity that exists but lacks it, the handler proceeds to the project
lookup with an undefined (`none`) key, and never answers 404 for the
missing annotation. -/
theorem avatar_no_project_key_check
    (cfg : Config) (env : Env) (cache : Cache) (now : Nat)
    (kind ns name : String) (e : Entity)
    (hEnt : env.getEntityByRef (stringifyEntityRef kind ns name) = some e)
    (hAnn : annGet e cfg.projectKeyAnn = none) :
    JiraCall.projectLookup none ∈
      (avatarHandler cfg env cache now kind ns name).trace ∧
    (avatarHandler cfg env cache now kind ns name).status ≠ 404 := by
  have hmem := projectLookup_mem_lookup_trace none env cache now
  unfold avatarHandler
  rw [hEnt]
  simp only [hAnn]
  rcases hres : getProjectResponse none env cache now with ⟨r, c1, tr⟩
  rw [hres] at hmem
  simp only at hmem
  cases r with
  | error u => exact ⟨hmem, by simp⟩
  | ok project => exact ⟨List.mem_append_left _ hmem, by simp⟩

/-- Witness for `avatar_no_project_key_check` at the sample entity without
the project-key annotation. -/
theorem avatar_no_project_key_check_witness :
    JiraCall.projectLookup none ∈
      (avatarHandler cfg0 env0 [] 0 "component" "default" "nokey").trace ∧
    (avatarHandler cfg0 env0 [] 0 "component" "default" "nokey").status
        ≠ 404 :=
  avatar_no_project_key_check cfg0 env0 [] 0 "component" "default" "nokey"
    entityNoKey (by decide) (by decide)
